import Mathlib

/-!
Verification of the BambooHR API client core (`src/services/bamboohr-client.ts`):
request executor (`makeRequest`) with its GET cache and rate-limit retry loop,
the report fetcher (`getReport`), and the multipart file upload (`uploadFile`).

Modelling conventions
- The network is an oracle `net : Nat → FetchOutcome` giving, for each attempt
  index, either an HTTP response or a transport-level rejection (`fetch` threw).
  URL and header construction are not modelled: no claim depends on them and the
  oracle abstracts `fetch` itself.
- `Math.random() * 1000` jitter is an oracle `jitter : Nat → Nat` (value of the
  draw made after attempt `i`).
- `Date.now()` is a single `now : Nat` for the whole call; the clock advance
  during retry sleeps is not modelled (no claim compares lookup and store times).
- JS `Map` is an association list with lookup of the first matching key;
  `Map.set` replaces in place, `Map.delete` removes the entry.
- `response.json()` is kept opaque: a parsed body is `RespData.jsonData` of the
  raw body text (JSON parse failures are out of scope of every claim).
- Header accessors return `Option String`/`Option Nat`; the JS falsiness of the
  empty string is modelled explicitly where the source relies on it.
- The `Retry-After` header is modelled already parsed as integer seconds
  (`parseInt` of a numeric header value), the only case the claims mention.
-/

/-- Payload returned by the executor: `{}` for empty responses, parsed JSON
(kept opaque as the raw body text), or raw text. -/
inductive RespData where
  | emptyObj
  | jsonData (body : String)
  | textData (body : String)
  deriving DecidableEq, Repr

/-- Source `interface CacheEntry`: parsed data plus capture timestamp. -/
structure CacheEntry where
  data : RespData
  timestamp : Nat
  deriving DecidableEq, Repr

/-- The map `this.cache : Map<string, CacheEntry>`, as an association list. -/
abbrev Cache := List (String × CacheEntry)

/-- Source `cacheTTL = 5 * 60 * 1000` (5 minutes in milliseconds). -/
def cacheTTL : Nat := 5 * 60 * 1000

/-- JS `Map.get`: first entry with the given key. -/
def cacheGet : Cache → String → Option CacheEntry
  | [], _ => none
  | (k, e) :: rest, key => if k == key then some e else cacheGet rest key

/-- JS `Map.set`: replace the entry in place, or append a fresh one. -/
def cacheSet : Cache → String → CacheEntry → Cache
  | [], key, e => [(key, e)]
  | (k, e0) :: rest, key, e =>
      if k == key then (key, e) :: rest else (k, e0) :: cacheSet rest key e

/-- JS `Map.delete`: remove the entry with the given key. -/
def cacheDelete : Cache → String → Cache
  | [], _ => []
  | (k, e) :: rest, key => if k == key then rest else (k, e) :: cacheDelete rest key

/-- Serialization of one query-parameter pair inside `JSON.stringify`. -/
def stringifyPairs : List (String × String) → String
  | [] => ""
  | [(k, v)] => "\"" ++ k ++ "\":\"" ++ v ++ "\""
  | (k, v) :: rest => "\"" ++ k ++ "\":\"" ++ v ++ "\"," ++ stringifyPairs rest

/-- JS `JSON.stringify(queryParams)` for a string-valued parameter object,
preserving insertion order (the source does not canonicalize). -/
def jsonStringify (qp : List (String × String)) : String :=
  "\x7b" ++ stringifyPairs qp ++ "\x7d"

/-- Source `getCacheKey(endpoint, queryParams)`: endpoint followed by the serialized
parameters, or the endpoint alone when no parameters were given. -/
def getCacheKey (endpoint : String) (queryParams : Option (List (String × String))) : String :=
  match queryParams with
  | some qp => endpoint ++ jsonStringify qp
  | none => endpoint ++ ""

/-- Source `getFromCache(key)`: miss on no entry; a stale entry
(`now - entry.timestamp > cacheTTL`) is deleted and reported as a miss;
otherwise the stored data is returned. Also returns the updated map. -/
def getFromCache (c : Cache) (key : String) (now : Nat) : Option RespData × Cache :=
  match cacheGet c key with
  | none => (none, c)
  | some entry =>
      if cacheTTL < now - entry.timestamp then (none, cacheDelete c key)
      else (some entry.data, c)

/-- Source `setCache(key, data)`: store the data with the current timestamp. -/
def setCache (c : Cache) (key : String) (data : RespData) (now : Nat) : Cache :=
  cacheSet c key { data := data, timestamp := now }

/-- HTTP verbs accepted by `makeRequest`. -/
inductive Method where
  | GET
  | POST
  | PUT
  | DELETE
  deriving DecidableEq, Repr

/-- An HTTP response as observed by the client: status line plus the four
headers the source reads, and the raw body text. -/
structure HttpResponse where
  status : Nat
  statusText : String
  errorHeader : Option String
  retryAfterSecs : Option Nat
  contentType : Option String
  body : String
  deriving DecidableEq, Repr

/-- Outcome of one `fetch` call: a response, or a rejection (DNS failure,
connection refused, timeout) carrying the thrown error message. -/
inductive FetchOutcome where
  | resp (r : HttpResponse)
  | netError (msg : String)
  deriving DecidableEq, Repr

/-- Source `interface ApiError` from `src/types.ts`. -/
structure ApiError where
  error : String
  message : String
  status : Option Nat := none
  deriving DecidableEq, Repr

/-- A value thrown out of the executor: an `ApiError` record, or the raw
transport error rethrown unwrapped. -/
inductive ThrownError where
  | api (e : ApiError)
  | raw (msg : String)
  deriving DecidableEq, Repr

/-- Observable outcome of one `makeRequest` call: the returned or thrown value,
the final cache, how many `fetch` calls ran, and the sleep durations in order. -/
structure MakeRequestOut where
  result : Except ThrownError RespData
  cache : Cache
  fetchCount : Nat
  waits : List Nat
  deriving Repr

/-- JS `response.ok`: status in the 200..299 range. -/
def respOk (r : HttpResponse) : Bool :=
  200 ≤ r.status && r.status ≤ 299

/-- Source `headers.get('X-BambooHR-Error-Message') || "HTTP <status>: <statusText>"`
(an empty header string is falsy in JS and falls through). -/
def errorMessageFor (errorHeader : Option String) (status : Nat) (statusText : String) : String :=
  match errorHeader with
  | some m => if m.isEmpty then "HTTP " ++ toString status ++ ": " ++ statusText else m
  | none => "HTTP " ++ toString status ++ ": " ++ statusText

/-- The vendor-header-or-fallback message for a response. -/
def httpErrorMessage (r : HttpResponse) : String :=
  errorMessageFor r.errorHeader r.status r.statusText

/-- The 401 message override. -/
def authFailedMessage : String :=
  "Authentication failed. The API key is invalid or has been revoked. Please verify BAMBOOHR_API_KEY in your .env file and ensure the key is still active in BambooHR → API Keys settings."

/-- The 403 message override. -/
def forbiddenMessage : String :=
  "Access forbidden. The user associated with this API key lacks permissions for this resource. Generate a new API key with an admin or appropriately permissioned user."

/-- The 404 message override. -/
def notFoundMessage : String :=
  "Resource not found. Verify the employee ID or resource identifier is correct."

/-- The message of the error thrown for a non-2xx status other than 429/503:
the 401/403/404 overrides, else the vendor-header-or-fallback message. -/
def terminalErrorMessage (r : HttpResponse) : String :=
  if r.status == 401 then authFailedMessage
  else if r.status == 403 then forbiddenMessage
  else if r.status == 404 then notFoundMessage
  else httpErrorMessage r

/-- The terminal message set when the retry budget is exhausted on 429/503. -/
def rateLimitExhaustedMessage : String :=
  "Rate limit exceeded. Maximum retry attempts reached. Please try again later."

/-- The transient message set on a retried 429/503 (the JS float division
`waitTime / 1000` is approximated by Nat division; no claim reads this text). -/
def retryingMessage (waitTime attempt maxRetries : Nat) : String :=
  "Rate limit exceeded. Retrying after " ++ toString (waitTime / 1000) ++
    " seconds... (Attempt " ++ toString (attempt + 1) ++ "/" ++ toString maxRetries ++ ")"

/-- Does the character pattern occur at the head of the list? -/
def headMatch : List Char → List Char → Bool
  | [], _ => true
  | _ :: _, [] => false
  | p :: ps, c :: cs => p == c && headMatch ps cs

/-- Substring occurrence over character lists. -/
def containsSub (pat : List Char) : List Char → Bool
  | [] => pat.isEmpty
  | c :: cs => headMatch pat (c :: cs) || containsSub pat cs

/-- JS `String.prototype.includes`. -/
def strContains (s pat : String) : Bool :=
  containsSub pat.data s.data

/-- The retry loop of `makeRequest` (`for attempt = 0..maxRetries`), written
with `fuel` = number of loop iterations still permitted, maintained by the
caller as `maxRetries + 1 - attempt`; the `fuel = 0` case is the source's
unreachable post-loop `throw lastError || UNKNOWN_ERROR` fallback. `lastError`
holds the value the source's catch block last stored. -/
def makeRequestLoop (net : Nat → FetchOutcome) (jitter : Nat → Nat) (method : Method)
    (cacheKey : String) (now : Nat) (maxRetries : Nat) :
    Nat → Nat → Nat → Option ThrownError → Cache → MakeRequestOut
  | 0, _, _, lastError, cache =>
      { result := .error (lastError.getD (.api { error := "UNKNOWN_ERROR", message := "An unknown error occurred" })),
        cache := cache, fetchCount := 0, waits := [] }
  | fuel + 1, attempt, retryDelay, _, cache =>
      match net attempt with
      | .netError msg =>
          -- the caught rejection has no `error` field, so the immediate-rethrow
          -- branch is skipped and `lastError` is set to the raw error
          if attempt < maxRetries then
            let out := makeRequestLoop net jitter method cacheKey now maxRetries
              fuel (attempt + 1) retryDelay (some (.raw msg)) cache
            { out with fetchCount := out.fetchCount + 1 }
          else
            -- `attempt === maxRetries`: `throw lastError`, i.e. the raw error
            -- just stored (the `!lastError` NETWORK_ERROR wrap is unreachable)
            { result := .error (.raw msg), cache := cache, fetchCount := 1, waits := [] }
      | .resp r =>
          if respOk r then
            match r.contentType with
            | none =>
                { result := .ok .emptyObj, cache := cache, fetchCount := 1, waits := [] }
            | some ct =>
                if ct.isEmpty || r.status == 204 then
                  { result := .ok .emptyObj, cache := cache, fetchCount := 1, waits := [] }
                else if strContains ct "application/json" then
                  let data := RespData.jsonData r.body
                  let cache1 := if method == .GET then setCache cache cacheKey data now else cache
                  { result := .ok data, cache := cache1, fetchCount := 1, waits := [] }
                else
                  { result := .ok (.textData r.body), cache := cache, fetchCount := 1, waits := [] }
          else
            if r.status == 429 || r.status == 503 then
              let waitTime := match r.retryAfterSecs with
                | some s => s * 1000
                | none => retryDelay
              if attempt < maxRetries then
                let err : ApiError :=
                  { error := "API_ERROR", message := retryingMessage waitTime attempt maxRetries,
                    status := some r.status }
                let newDelay := min (retryDelay * 2 + jitter attempt) 8000
                let out := makeRequestLoop net jitter method cacheKey now maxRetries
                  fuel (attempt + 1) newDelay (some (.api err)) cache
                { out with fetchCount := out.fetchCount + 1, waits := waitTime :: out.waits }
              else
                -- thrown with the exhausted message; the catch block stores it
                -- and, `attempt === maxRetries`, rethrows it
                let err : ApiError :=
                  { error := "API_ERROR", message := rateLimitExhaustedMessage,
                    status := some r.status }
                { result := .error (.api err), cache := cache, fetchCount := 1, waits := [] }
            else
              -- thrown; the catch block rethrows immediately (it has an
              -- `error` field and its status is neither 429 nor 503)
              let err : ApiError :=
                { error := "API_ERROR", message := terminalErrorMessage r,
                  status := some r.status }
              { result := .error (.api err), cache := cache, fetchCount := 1, waits := [] }

/-- Source `makeRequest(endpoint, method, body, queryParams, maxRetries)`. For GET the
cache is consulted first and a non-null hit is returned with no network call;
otherwise the retry loop runs from attempt 0 with `retryDelay = 1000`.
The request body never influences the observable behaviour modelled here
(it is passed through to `fetch`, which the `net` oracle abstracts). -/
def makeRequest (net : Nat → FetchOutcome) (jitter : Nat → Nat) (method : Method)
    (endpoint : String) (queryParams : Option (List (String × String)))
    (maxRetries : Nat) (cache : Cache) (now : Nat) : MakeRequestOut :=
  if method == .GET then
    let cacheKey := getCacheKey endpoint queryParams
    match getFromCache cache cacheKey now with
    | (some data, cache1) =>
        { result := .ok data, cache := cache1, fetchCount := 0, waits := [] }
    | (none, cache1) =>
        makeRequestLoop net jitter method cacheKey now maxRetries (maxRetries + 1) 0 1000 none cache1
  else
    makeRequestLoop net jitter method (getCacheKey endpoint queryParams) now maxRetries
      (maxRetries + 1) 0 1000 none cache

/-- The three formats accepted by `getReport`. -/
inductive ReportFormat where
  | json
  | xml
  | csv
  deriving DecidableEq, Repr

/-- Observable outcome of one `getReport` call. The cache is threaded through
untouched: the source method can reach `this.cache` but never references it. -/
structure GetReportOut where
  result : Except ThrownError RespData
  cache : Cache
  fetchCount : Nat
  deriving Repr

/-- Source `getReport(endpoint, format)`: a single `fetch` (only `net 0` is consumed),
no cache use and no retry loop; any non-ok status throws an `ApiError` with the
vendor-header-or-fallback message; a fetch rejection propagates uncaught. -/
def getReport (net : Nat → FetchOutcome) (format : ReportFormat) (cache : Cache) : GetReportOut :=
  match net 0 with
  | .netError msg =>
      { result := .error (.raw msg), cache := cache, fetchCount := 1 }
  | .resp r =>
      if respOk r then
        if format == .json then
          { result := .ok (.jsonData r.body), cache := cache, fetchCount := 1 }
        else
          { result := .ok (.textData r.body), cache := cache, fetchCount := 1 }
      else
        let err : ApiError :=
          { error := "API_ERROR", message := httpErrorMessage r, status := some r.status }
        { result := .error (.api err), cache := cache, fetchCount := 1 }

/-- The fixed extension → MIME table of `uploadFile`. -/
def contentTypeMap : List (String × String) :=
  [("pdf", "application/pdf"),
   ("doc", "application/msword"),
   ("docx", "application/vnd.openxmlformats-officedocument.wordprocessingml.document"),
   ("xls", "application/vnd.ms-excel"),
   ("xlsx", "application/vnd.openxmlformats-officedocument.spreadsheetml.sheet"),
   ("png", "image/png"),
   ("jpg", "image/jpeg"),
   ("jpeg", "image/jpeg"),
   ("gif", "image/gif"),
   ("txt", "text/plain")]

/-- Splitting a character list at every occurrence of the separator,
accumulating the current piece in reverse. -/
def splitOnCharAux (sep : Char) : List Char → List Char → List (List Char)
  | [], acc => [acc.reverse]
  | c :: cs, acc =>
      if c == sep then acc.reverse :: splitOnCharAux sep cs []
      else splitOnCharAux sep cs (c :: acc)

/-- JS `String.prototype.split` with a one-character separator (the source only
splits on `'.'` and `'/'`): every occurrence splits, empty pieces are kept. -/
def splitOnChar (sep : Char) (s : String) : List String :=
  (splitOnCharAux sep s.data []).map (fun l => ⟨l⟩)

/-- JS `toLowerCase`, per character (`Char.toLower` lowers the ASCII range,
which is all the extension table distinguishes). -/
def lowerStr (s : String) : String :=
  ⟨s.data.map Char.toLower⟩

/-- Source `fileName.split('.').pop()?.toLowerCase() || ''`. -/
def fileExtension (fileName : String) : String :=
  lowerStr (((splitOnChar '.' fileName).getLast?).getD "")

/-- Source `contentTypeMap[extension] || 'application/octet-stream'`. -/
def fileContentTypeFor (fileName : String) : String :=
  match contentTypeMap.lookup (fileExtension fileName) with
  | some ct => ct
  | none => "application/octet-stream"

/-- UTF-8 encoding of one code point. -/
def utf8Bytes (c : Nat) : List Nat :=
  if c < 0x80 then [c]
  else if c < 0x800 then [0xC0 + c / 0x40, 0x80 + c % 0x40]
  else if c < 0x10000 then [0xE0 + c / 0x1000, 0x80 + (c / 0x40) % 0x40, 0x80 + c % 0x40]
  else [0xF0 + c / 0x40000, 0x80 + (c / 0x1000) % 0x40, 0x80 + (c / 0x40) % 0x40, 0x80 + c % 0x40]

/-- JS `Buffer.from(s, 'utf-8')` as a list of byte values. -/
def strBytes (s : String) : List Nat :=
  s.data.flatMap (fun ch => utf8Bytes ch.toNat)

/-- The boundary token: `----BambooHRFormBoundary${Date.now()}`. -/
def uploadBoundary (nowMs : Nat) : String :=
  "----BambooHRFormBoundary" ++ toString nowMs

/-- The multipart body of `uploadFile`: the file-part headers as UTF-8 bytes,
the raw file bytes, then the closing chunk (CRLF, the category part when a
non-empty category id was supplied — `if (categoryId)` is a JS truthiness
check — and the closing boundary). -/
def multipartBody (boundary fileName : String) (fileBuffer : List Nat)
    (categoryId : Option String) : List Nat :=
  let fileContentType := fileContentTypeFor fileName
  let body :=
    "--" ++ boundary ++ "\r\n" ++
    "Content-Disposition: form-data; name=\"file\"; filename=\"" ++ fileName ++ "\"\r\n" ++
    "Content-Type: " ++ fileContentType ++ "\r\n\r\n"
  let categoryPart :=
    match categoryId with
    | some cid =>
        if cid.isEmpty then ""
        else
          "--" ++ boundary ++ "\r\n" ++
          "Content-Disposition: form-data; name=\"category\"\r\n\r\n" ++
          cid ++ "\r\n"
    | none => ""
  strBytes body ++ fileBuffer ++ strBytes ("\r\n" ++ categoryPart ++ "--" ++ boundary ++ "--\r\n")

/-- The response of the upload POST: status line plus the two headers read. -/
structure UploadResponse where
  status : Nat
  statusText : String
  errorHeader : Option String
  location : Option String
  deriving DecidableEq, Repr

/-- Source `location ? location.split('/').pop() : undefined` (an empty-string header
is falsy in JS). -/
def locationFileId (location : Option String) : Option String :=
  match location with
  | some loc => if loc.isEmpty then none else (splitOnChar '/' loc).getLast?
  | none => none

/-- The returned-or-thrown value of `uploadFile` for a given response: non-2xx
throws the usual `ApiError`; 2xx returns `{ id }` with the trailing path
segment of the `Location` header, absent when the header is absent. -/
def uploadFileResult (resp : UploadResponse) : Except ApiError (Option String) :=
  if 200 ≤ resp.status && resp.status ≤ 299 then
    .ok (locationFileId resp.location)
  else
    .error { error := "API_ERROR",
             message := errorMessageFor resp.errorHeader resp.status resp.statusText,
             status := some resp.status }

/-- Observable outcome of one `uploadFile` call: the boundary chosen, the body
sent, the result, and the number of `fetch` calls (the source has no loop). -/
structure UploadOut where
  boundary : String
  body : List Nat
  result : Except ApiError (Option String)
  fetchCount : Nat
  deriving Repr

/-- Source `uploadFile(endpoint, fileData, fileName, categoryId)`; `fileBuffer` is the
file content already as bytes (base64 string input is decoded to bytes before
any step modelled here). -/
def uploadFile (nowMs : Nat) (fileBuffer : List Nat) (fileName : String)
    (categoryId : Option String) (resp : UploadResponse) : UploadOut :=
  let boundary := uploadBoundary nowMs
  { boundary := boundary,
    body := multipartBody boundary fileName fileBuffer categoryId,
    result := uploadFileResult resp,
    fetchCount := 1 }

/-- Does the byte pattern occur at the head of the list? -/
def bytesHeadMatch : List Nat → List Nat → Bool
  | [], _ => true
  | _ :: _, [] => false
  | p :: ps, b :: bs => p == b && bytesHeadMatch ps bs

/-- Number of positions at which the byte pattern occurs. -/
def countSub (pat : List Nat) : List Nat → Nat
  | [] => if bytesHeadMatch pat [] then 1 else 0
  | b :: bs => (if bytesHeadMatch pat (b :: bs) then 1 else 0) + countSub pat bs

/-- The backoff wait sequence of the retry loop: the delay used at each retry,
starting from `d`, each next delay `min (previous * 2 + jitter i) 8000`. -/
def rateWaits (jitter : Nat → Nat) : Nat → Nat → Nat → List Nat
  | _, _, 0 => []
  | d, attempt, fuel + 1 => d :: rateWaits jitter (min (d * 2 + jitter attempt) 8000) (attempt + 1) fuel

theorem cacheGet_cacheSet (c : Cache) (k : String) (e : CacheEntry) :
    cacheGet (cacheSet c k e) k = some e := by
  induction c with
  | nil => simp [cacheSet, cacheGet]
  | cons p rest ih =>
      obtain ⟨k0, e0⟩ := p
      by_cases h : k0 == k
      · simp [cacheSet, cacheGet, h]
      · simp [cacheSet, cacheGet, h, ih]

theorem makeRequest_miss (net : Nat → FetchOutcome) (jitter : Nat → Nat) (method : Method)
    (endpoint : String) (qp : Option (List (String × String))) (maxRetries : Nat)
    (cache : Cache) (now : Nat)
    (hmiss : cacheGet cache (getCacheKey endpoint qp) = none) :
    makeRequest net jitter method endpoint qp maxRetries cache now =
      makeRequestLoop net jitter method (getCacheKey endpoint qp) now maxRetries
        (maxRetries + 1) 0 1000 none cache := by
  cases method <;> simp [makeRequest, getFromCache, hmiss]

theorem makeRequestLoop_fetchCount (net : Nat → FetchOutcome) (jitter : Nat → Nat)
    (method : Method) (cacheKey : String) (now maxRetries : Nat)
    (fuel attempt retryDelay : Nat) (lastError : Option ThrownError) (cache : Cache) :
    1 ≤ (makeRequestLoop net jitter method cacheKey now maxRetries
          (fuel + 1) attempt retryDelay lastError cache).fetchCount := by
  simp only [makeRequestLoop]
  repeat' split
  all_goals simp

theorem makeRequestLoop_frame (net : Nat → FetchOutcome) (jitter : Nat → Nat)
    (method : Method) (hm : method ≠ .GET) (cacheKey : String) (now maxRetries : Nat) :
    ∀ fuel attempt retryDelay lastError cache cache2,
      makeRequestLoop net jitter method cacheKey now maxRetries fuel attempt retryDelay lastError cache
        = { makeRequestLoop net jitter method cacheKey now maxRetries fuel attempt retryDelay lastError cache2
              with cache := cache } := by
  intro fuel
  induction fuel with
  | zero =>
      intro attempt retryDelay lastError cache cache2
      simp [makeRequestLoop]
  | succ f ih =>
      intro attempt retryDelay lastError cache cache2
      simp only [makeRequestLoop]
      repeat' split
      all_goals try simp_all
      all_goals (rw [ih _ _ _ cache cache2]; simp)

theorem makeRequestLoop_store (net : Nat → FetchOutcome) (jitter : Nat → Nat)
    (cacheKey : String) (now maxRetries : Nat) :
    ∀ fuel attempt retryDelay lastError cache b,
      (makeRequestLoop net jitter .GET cacheKey now maxRetries fuel attempt retryDelay lastError cache).result
          = .ok (.jsonData b) →
      (makeRequestLoop net jitter .GET cacheKey now maxRetries fuel attempt retryDelay lastError cache).cache
          = setCache cache cacheKey (.jsonData b) now := by
  intro fuel
  induction fuel with
  | zero =>
      intro attempt retryDelay lastError cache b h
      simp [makeRequestLoop] at h
  | succ f ih =>
      intro attempt retryDelay lastError cache b h
      simp only [makeRequestLoop] at h ⊢
      repeat' split at h
      all_goals simp_all

theorem makeRequestLoop_allNetError (net : Nat → FetchOutcome) (jitter : Nat → Nat)
    (method : Method) (cacheKey : String) (now maxRetries : Nat) (msgs : Nat → String)
    (hnet : ∀ i, net i = .netError (msgs i)) :
    ∀ fuel attempt retryDelay lastError cache,
      fuel = maxRetries + 1 - attempt → attempt ≤ maxRetries →
      makeRequestLoop net jitter method cacheKey now maxRetries fuel attempt retryDelay lastError cache
        = { result := .error (.raw (msgs maxRetries)), cache := cache,
            fetchCount := fuel, waits := [] } := by
  intro fuel
  induction fuel with
  | zero =>
      intro attempt retryDelay lastError cache hf ha
      exfalso
      omega
  | succ f ih =>
      intro attempt retryDelay lastError cache hf ha
      simp only [makeRequestLoop, hnet attempt]
      by_cases h : attempt < maxRetries
      · rw [ih (attempt + 1) retryDelay (some (.raw (msgs attempt))) cache (by omega) (by omega)]
        simp [h]
      · have heq : attempt = maxRetries := by omega
        have hf0 : f = 0 := by omega
        subst heq hf0
        simp [h]

theorem makeRequestLoop_allRateLimited (net : Nat → FetchOutcome) (jitter : Nat → Nat)
    (method : Method) (cacheKey : String) (now maxRetries : Nat) (r : HttpResponse)
    (hnet : ∀ i, net i = .resp r) (hst : r.status = 429 ∨ r.status = 503)
    (hra : r.retryAfterSecs = none) :
    ∀ fuel attempt retryDelay lastError cache,
      fuel = maxRetries + 1 - attempt → attempt ≤ maxRetries →
      makeRequestLoop net jitter method cacheKey now maxRetries fuel attempt retryDelay lastError cache
        = { result := .error (.api ⟨"API_ERROR", rateLimitExhaustedMessage, some r.status⟩),
            cache := cache, fetchCount := fuel,
            waits := rateWaits jitter retryDelay attempt (fuel - 1) } := by
  have hok : respOk r = false := by
    rcases hst with h | h <;> simp [respOk, h]
  have hrl : (r.status == 429 || r.status == 503) = true := by
    rcases hst with h | h <;> simp [h]
  intro fuel
  induction fuel with
  | zero =>
      intro attempt retryDelay lastError cache hf ha
      exfalso
      omega
  | succ f ih =>
      intro attempt retryDelay lastError cache hf ha
      simp only [makeRequestLoop, hnet attempt, hok, hrl, hra]
      by_cases h : attempt < maxRetries
      · rw [ih (attempt + 1) (min (retryDelay * 2 + jitter attempt) 8000) _ cache (by omega) (by omega)]
        obtain ⟨k, hk⟩ : ∃ k, f = k + 1 := ⟨f - 1, by omega⟩
        subst hk
        simp [h, rateWaits]
      · have heq : attempt = maxRetries := by omega
        have hf0 : f = 0 := by omega
        subst heq hf0
        simp [h, rateWaits]

def jitterZero : Nat → Nat := fun _ => 0

def respJsonDemo : HttpResponse :=
  { status := 200, statusText := "OK", errorHeader := none, retryAfterSecs := none,
    contentType := some "application/json", body := "[\"x\"]" }

def netJson : Nat → FetchOutcome := fun _ => .resp respJsonDemo

/-- Claim C1: for every GET through `makeRequest`, a non-stale entry under the
key derived from (endpoint, query parameters) is returned with no network call;
on a miss the request goes to the network and a successful parsed (JSON)
response is stored under that key with the current timestamp; a stale entry is
treated as absent on lookup and removed. -/
theorem c1_get_cache_behaviour (net : Nat → FetchOutcome) (jitter : Nat → Nat)
    (endpoint : String) (qp : Option (List (String × String))) (maxRetries : Nat)
    (cache : Cache) (now : Nat) :
    (∀ e, cacheGet cache (getCacheKey endpoint qp) = some e → now - e.timestamp ≤ cacheTTL →
      (makeRequest net jitter .GET endpoint qp maxRetries cache now).result = .ok e.data ∧
      (makeRequest net jitter .GET endpoint qp maxRetries cache now).fetchCount = 0 ∧
      (makeRequest net jitter .GET endpoint qp maxRetries cache now).cache = cache) ∧
    (cacheGet cache (getCacheKey endpoint qp) = none →
      1 ≤ (makeRequest net jitter .GET endpoint qp maxRetries cache now).fetchCount ∧
      ∀ b, (makeRequest net jitter .GET endpoint qp maxRetries cache now).result = .ok (.jsonData b) →
        cacheGet (makeRequest net jitter .GET endpoint qp maxRetries cache now).cache
            (getCacheKey endpoint qp)
          = some { data := .jsonData b, timestamp := now }) ∧
    (∀ e, cacheGet cache (getCacheKey endpoint qp) = some e → cacheTTL < now - e.timestamp →
      cacheGet (cacheDelete cache (getCacheKey endpoint qp)) (getCacheKey endpoint qp) = none →
      makeRequest net jitter .GET endpoint qp maxRetries cache now =
        makeRequest net jitter .GET endpoint qp maxRetries
          (cacheDelete cache (getCacheKey endpoint qp)) now) := by
  refine ⟨?_, ?_, ?_⟩
  · intro e he hfresh
    have hc : ¬ (cacheTTL < now - e.timestamp) := by omega
    have hget : getFromCache cache (getCacheKey endpoint qp) now = (some e.data, cache) := by
      simp [getFromCache, he, hc]
    simp [makeRequest, hget]
  · intro hnone
    rw [makeRequest_miss net jitter .GET endpoint qp maxRetries cache now hnone]
    constructor
    · exact makeRequestLoop_fetchCount net jitter .GET (getCacheKey endpoint qp) now maxRetries
        maxRetries 0 1000 none cache
    · intro b hres
      rw [makeRequestLoop_store net jitter (getCacheKey endpoint qp) now maxRetries
        (maxRetries + 1) 0 1000 none cache b hres]
      exact cacheGet_cacheSet cache (getCacheKey endpoint qp) _
  · intro e he hstale hclean
    have h1 : getFromCache cache (getCacheKey endpoint qp) now
        = (none, cacheDelete cache (getCacheKey endpoint qp)) := by
      simp [getFromCache, he, hstale]
    have h2 : getFromCache (cacheDelete cache (getCacheKey endpoint qp)) (getCacheKey endpoint qp) now
        = (none, cacheDelete cache (getCacheKey endpoint qp)) := by
      simp [getFromCache, hclean]
    simp [makeRequest, h1, h2]

def entryFresh : CacheEntry := { data := .jsonData "cached", timestamp := 0 }

def entryStale : CacheEntry := { data := .jsonData "old", timestamp := 0 }

/-- Concrete instantiation of `c1_get_cache_behaviour`: a fresh hit at age
100ms returns the cached data with no fetch; a miss fetches and stores the
parsed body at the current time; a stale entry at age 400000ms (> 5min TTL) is
removed and the call behaves as if it were absent. -/
theorem c1_get_cache_behaviour_witness :
    ((makeRequest netJson jitterZero .GET "/e" none 3 [("/e", entryFresh)] 100).result
        = .ok (.jsonData "cached") ∧
      (makeRequest netJson jitterZero .GET "/e" none 3 [("/e", entryFresh)] 100).fetchCount = 0 ∧
      (makeRequest netJson jitterZero .GET "/e" none 3 [("/e", entryFresh)] 100).cache
        = [("/e", entryFresh)]) ∧
    (1 ≤ (makeRequest netJson jitterZero .GET "/e" none 3 [] 100).fetchCount ∧
      cacheGet (makeRequest netJson jitterZero .GET "/e" none 3 [] 100).cache
          (getCacheKey "/e" none)
        = some { data := .jsonData "[\"x\"]", timestamp := 100 }) ∧
    (makeRequest netJson jitterZero .GET "/e" none 3 [("/e", entryStale)] 400000 =
      makeRequest netJson jitterZero .GET "/e" none 3
        (cacheDelete [("/e", entryStale)] (getCacheKey "/e" none)) 400000) := by
  have h := c1_get_cache_behaviour netJson jitterZero "/e" none 3 [("/e", entryFresh)] 100
  have h2 := c1_get_cache_behaviour netJson jitterZero "/e" none 3 [] 100
  have h3 := c1_get_cache_behaviour netJson jitterZero "/e" none 3 [("/e", entryStale)] 400000
  refine ⟨h.1 entryFresh (by decide) (by decide), ?_, ?_⟩
  · obtain ⟨ha, hb⟩ := h2.2.1 (by decide)
    exact ⟨ha, hb "[\"x\"]" rfl⟩
  · exact h3.2.2 entryStale (by decide) (by decide) (by decide)

/-- Claim C2: on 429/503 with attempts remaining, `makeRequest` waits before
retrying — a present `Retry-After: s` header gives a wait of `s * 1000` ms,
otherwise the exponential backoff starting at 1000 ms, doubled each attempt
with jitter added and capped at 8000 ms (`rateWaits`); it retries up to the
configured maximum and then surfaces a terminal rate-limit error. -/
theorem c2_rate_limit_retry (net : Nat → FetchOutcome) (jitter : Nat → Nat) (method : Method)
    (endpoint : String) (qp : Option (List (String × String))) (maxRetries : Nat)
    (cache : Cache) (now : Nat)
    (hmiss : cacheGet cache (getCacheKey endpoint qp) = none) :
    (∀ r s, net 0 = .resp r → (r.status = 429 ∨ r.status = 503) → r.retryAfterSecs = some s →
      0 < maxRetries →
      (makeRequest net jitter method endpoint qp maxRetries cache now).waits.head?
        = some (s * 1000)) ∧
    (∀ r, (∀ i, net i = .resp r) → (r.status = 429 ∨ r.status = 503) → r.retryAfterSecs = none →
      makeRequest net jitter method endpoint qp maxRetries cache now
        = { result := .error (.api ⟨"API_ERROR", rateLimitExhaustedMessage, some r.status⟩),
            cache := cache, fetchCount := maxRetries + 1,
            waits := rateWaits jitter 1000 0 maxRetries }) := by
  rw [makeRequest_miss net jitter method endpoint qp maxRetries cache now hmiss]
  constructor
  · intro r s hn hst hra hpos
    have hok : respOk r = false := by rcases hst with h | h <;> simp [respOk, h]
    have hrl : (r.status == 429 || r.status == 503) = true := by
      rcases hst with h | h <;> simp [h]
    simp [makeRequestLoop, hn, hok, hrl, hra, hpos]
  · intro r hn hst hra
    have h := makeRequestLoop_allRateLimited net jitter method (getCacheKey endpoint qp) now
      maxRetries r hn hst hra (maxRetries + 1) 0 1000 none cache (by omega) (by omega)
    rw [h]
    simp

def resp429RA2 : HttpResponse :=
  { status := 429, statusText := "Too Many Requests", errorHeader := none,
    retryAfterSecs := some 2, contentType := none, body := "" }

def net429RA2 : Nat → FetchOutcome := fun _ => .resp resp429RA2

def resp429NoRA : HttpResponse :=
  { status := 429, statusText := "Too Many Requests", errorHeader := none,
    retryAfterSecs := none, contentType := none, body := "" }

def net429NoRA : Nat → FetchOutcome := fun _ => .resp resp429NoRA

/-- Concrete instantiation of `c2_rate_limit_retry`: `Retry-After: 2` waits
2000 ms before the first retry; without the header the waits are
1000, 2000, 4000 ms for `maxRetries = 3` and zero jitter, four fetches run,
and the terminal rate-limit error is surfaced. -/
theorem c2_rate_limit_retry_witness :
    (makeRequest net429RA2 jitterZero .GET "/e" none 3 [] 0).waits.head? = some 2000 ∧
    (makeRequest net429NoRA jitterZero .GET "/e" none 3 [] 0).waits = [1000, 2000, 4000] ∧
    (makeRequest net429NoRA jitterZero .GET "/e" none 3 [] 0).fetchCount = 4 ∧
    (makeRequest net429NoRA jitterZero .GET "/e" none 3 [] 0).result
      = .error (.api ⟨"API_ERROR", rateLimitExhaustedMessage, some 429⟩) := by
  have h1 := (c2_rate_limit_retry net429RA2 jitterZero .GET "/e" none 3 [] 0 rfl).1
    resp429RA2 2 rfl (Or.inl rfl) rfl (by decide)
  have h2 := (c2_rate_limit_retry net429NoRA jitterZero .GET "/e" none 3 [] 0 rfl).2
    resp429NoRA (fun i => rfl) (Or.inl rfl) rfl
  refine ⟨by simpa using h1, ?_, ?_, ?_⟩
  · rw [h2]
    rfl
  · rw [h2]
  · rw [h2]
    rfl

/-- Claim C3: POST/PUT/DELETE requests never read or write the cache — the
final cache equals the initial one, and the observable outcome is the same for
every initial cache contents. -/
theorem c3_mutations_bypass_cache (net : Nat → FetchOutcome) (jitter : Nat → Nat) (method : Method)
    (endpoint : String) (qp : Option (List (String × String))) (maxRetries : Nat)
    (cache : Cache) (now : Nat)
    (hm : method = .POST ∨ method = .PUT ∨ method = .DELETE) :
    (makeRequest net jitter method endpoint qp maxRetries cache now).cache = cache ∧
    (∀ cache2, makeRequest net jitter method endpoint qp maxRetries cache now
      = { makeRequest net jitter method endpoint qp maxRetries cache2 now
            with cache := cache }) := by
  have hng : method ≠ .GET := by rcases hm with h | h | h <;> subst h <;> simp
  have hmg : (method == Method.GET) = false := by
    cases method <;> simp_all
  have key : ∀ cache2, makeRequest net jitter method endpoint qp maxRetries cache now
      = { makeRequest net jitter method endpoint qp maxRetries cache2 now
            with cache := cache } := by
    intro cache2
    simp only [makeRequest, hmg, Bool.false_eq_true, if_false]
    exact makeRequestLoop_frame net jitter method hng (getCacheKey endpoint qp) now maxRetries
      (maxRetries + 1) 0 1000 none cache cache2
  refine ⟨?_, key⟩
  rw [key cache]

/-- Concrete instantiation of `c3_mutations_bypass_cache`: a POST that matches
an existing cached GET key leaves that entry untouched and behaves identically
with an empty cache. -/
theorem c3_mutations_bypass_cache_witness :
    (makeRequest netJson jitterZero .POST "/e" none 3 [("/e", entryFresh)] 100).cache
      = [("/e", entryFresh)] ∧
    makeRequest netJson jitterZero .POST "/e" none 3 [("/e", entryFresh)] 100
      = { makeRequest netJson jitterZero .POST "/e" none 3 [] 100
            with cache := [("/e", entryFresh)] } := by
  have h := c3_mutations_bypass_cache netJson jitterZero .POST "/e" none 3
    [("/e", entryFresh)] 100 (Or.inl rfl)
  exact ⟨h.1, h.2 []⟩

/-- Claim C4: a non-2xx status other than 429/503 fails immediately: one fetch,
no waits, and the `ApiError` (with the status-specific message) is thrown. -/
theorem c4_non_retryable_fail_fast (net : Nat → FetchOutcome) (jitter : Nat → Nat)
    (method : Method) (endpoint : String) (qp : Option (List (String × String)))
    (maxRetries : Nat) (cache : Cache) (now : Nat) (r : HttpResponse)
    (hnet : net 0 = .resp r) (hok : respOk r = false)
    (h429 : r.status ≠ 429) (h503 : r.status ≠ 503)
    (hmiss : cacheGet cache (getCacheKey endpoint qp) = none) :
    (makeRequest net jitter method endpoint qp maxRetries cache now).fetchCount = 1 ∧
    (makeRequest net jitter method endpoint qp maxRetries cache now).waits = [] ∧
    (makeRequest net jitter method endpoint qp maxRetries cache now).result
      = .error (.api ⟨"API_ERROR", terminalErrorMessage r, some r.status⟩) := by
  rw [makeRequest_miss net jitter method endpoint qp maxRetries cache now hmiss]
  have hrl : (r.status == 429 || r.status == 503) = false := by simp [h429, h503]
  simp [makeRequestLoop, hnet, hok, hrl]

def resp401 : HttpResponse :=
  { status := 401, statusText := "Unauthorized", errorHeader := none,
    retryAfterSecs := none, contentType := none, body := "" }

def net401 : Nat → FetchOutcome := fun _ => .resp resp401

/-- Concrete instantiation of `c4_non_retryable_fail_fast`: a 401 response
fails after exactly one fetch with no waiting. -/
theorem c4_non_retryable_fail_fast_witness :
    (makeRequest net401 jitterZero .GET "/e" none 3 [] 0).fetchCount = 1 ∧
    (makeRequest net401 jitterZero .GET "/e" none 3 [] 0).waits = [] ∧
    (makeRequest net401 jitterZero .GET "/e" none 3 [] 0).result
      = .error (.api ⟨"API_ERROR", terminalErrorMessage resp401, some 401⟩) :=
  c4_non_retryable_fail_fast net401 jitterZero .GET "/e" none 3 [] 0 resp401
    rfl (by decide) (by decide) (by decide) rfl

def netFlaky : Nat → FetchOutcome :=
  fun i => if i == 0 then .netError "connect ECONNREFUSED" else .resp respJsonDemo

/-- Claim C5 counterexample: a network-level failure on the first attempt of
`makeRequest`, with no prior rate-limit retry in progress, is not surfaced to
the caller: the request is retried at once (no wait) and the call succeeds on
the second attempt. -/
theorem c5_counterexample :
    (makeRequest netFlaky jitterZero .GET "/e" none 3 [] 100).result
      = .ok (.jsonData "[\"x\"]") ∧
    (makeRequest netFlaky jitterZero .GET "/e" none 3 [] 100).fetchCount = 2 ∧
    (makeRequest netFlaky jitterZero .GET "/e" none 3 [] 100).waits = [] :=
  ⟨rfl, rfl, rfl⟩

/-- Claim C5 (amended): a network-level failure is retried immediately (no
backoff wait) whenever attempts remain, whether or not a rate-limit retry is in
progress; only when all attempts fail is the last raw transport error
surfaced. -/
theorem c5_network_failure_retried (net : Nat → FetchOutcome) (jitter : Nat → Nat)
    (method : Method) (endpoint : String) (qp : Option (List (String × String)))
    (maxRetries : Nat) (cache : Cache) (now : Nat)
    (hmiss : cacheGet cache (getCacheKey endpoint qp) = none) :
    (∀ m, net 0 = .netError m → 0 < maxRetries →
      2 ≤ (makeRequest net jitter method endpoint qp maxRetries cache now).fetchCount) ∧
    (∀ msgs : Nat → String, (∀ i, net i = .netError (msgs i)) →
      makeRequest net jitter method endpoint qp maxRetries cache now
        = { result := .error (.raw (msgs maxRetries)), cache := cache,
            fetchCount := maxRetries + 1, waits := [] }) := by
  rw [makeRequest_miss net jitter method endpoint qp maxRetries cache now hmiss]
  constructor
  · intro m hn hpos
    obtain ⟨k, hk⟩ : ∃ k, maxRetries = k + 1 := ⟨maxRetries - 1, by omega⟩
    subst hk
    simp [makeRequestLoop, hn, hpos]
    repeat' split
    all_goals simp
  · intro msgs hn
    exact makeRequestLoop_allNetError net jitter method (getCacheKey endpoint qp) now maxRetries
      msgs hn (maxRetries + 1) 0 1000 none cache (by omega) (by omega)

def netDown : Nat → FetchOutcome := fun i => .netError ("down " ++ toString i)

/-- Concrete instantiation of `c5_network_failure_retried`: with every attempt
failing at transport level, four fetches run, nothing is waited, and the raw
error of the last attempt is thrown. -/
theorem c5_network_failure_retried_witness :
    2 ≤ (makeRequest netFlaky jitterZero .GET "/e" none 3 [] 100).fetchCount ∧
    makeRequest netDown jitterZero .GET "/e" none 3 [] 100
      = { result := .error (.raw "down 3"), cache := [], fetchCount := 4, waits := [] } := by
  have h1 := (c5_network_failure_retried netFlaky jitterZero .GET "/e" none 3 [] 100 rfl).1
    "connect ECONNREFUSED" rfl (by decide)
  have h2 := (c5_network_failure_retried netDown jitterZero .GET "/e" none 3 [] 100 rfl).2
    (fun i => "down " ++ toString i) (fun i => rfl)
  exact ⟨h1, by rw [h2]; rfl⟩

def resp404 : HttpResponse :=
  { status := 404, statusText := "Not Found", errorHeader := none,
    retryAfterSecs := none, contentType := none, body := "" }

def net404 : Nat → FetchOutcome := fun _ => .resp resp404

def resp500 : HttpResponse :=
  { status := 500, statusText := "Internal Server Error", errorHeader := none,
    retryAfterSecs := none, contentType := none, body := "" }

def net500 : Nat → FetchOutcome := fun _ => .resp resp500

/-- Claim C6 counterexample: the error record's kind field does not distinguish
the failure classes: a 404 yields kind "API_ERROR", identical to the kind of a
generic 500 failure — there is no distinct "not found" kind. -/
theorem c6_counterexample :
    (makeRequest net404 jitterZero .GET "/a" none 3 [] 0).result
      = .error (.api ⟨"API_ERROR", notFoundMessage, some 404⟩) ∧
    (makeRequest net500 jitterZero .GET "/a" none 3 [] 0).result
      = .error (.api ⟨"API_ERROR", "HTTP 500: Internal Server Error", some 500⟩) ∧
    ApiError.error ⟨"API_ERROR", notFoundMessage, some 404⟩
      = ApiError.error ⟨"API_ERROR", "HTTP 500: Internal Server Error", some 500⟩ :=
  ⟨rfl, rfl, rfl⟩

/-- Claim C6 (amended): every HTTP failure produces an `ApiError` record
`(error, message, status)` whose `error` (kind) field is always "API_ERROR";
the failure classes are distinguished by the `status` field and by the message
text — a 404 yields the fixed "Resource not found…" message (distinct from the
401/403 and rate-limit messages) together with status 404, not a distinct kind
value. -/
theorem c6_error_record_fields (net : Nat → FetchOutcome) (jitter : Nat → Nat)
    (method : Method) (endpoint : String) (qp : Option (List (String × String)))
    (maxRetries : Nat) (cache : Cache) (now : Nat) (r : HttpResponse)
    (hnet : net 0 = .resp r) (hok : respOk r = false)
    (h429 : r.status ≠ 429) (h503 : r.status ≠ 503)
    (hmiss : cacheGet cache (getCacheKey endpoint qp) = none) :
    (makeRequest net jitter method endpoint qp maxRetries cache now).result
      = .error (.api ⟨"API_ERROR", terminalErrorMessage r, some r.status⟩) ∧
    (r.status = 401 → terminalErrorMessage r = authFailedMessage) ∧
    (r.status = 403 → terminalErrorMessage r = forbiddenMessage) ∧
    (r.status = 404 → terminalErrorMessage r = notFoundMessage) ∧
    notFoundMessage ≠ authFailedMessage ∧
    notFoundMessage ≠ forbiddenMessage ∧
    notFoundMessage ≠ rateLimitExhaustedMessage := by
  refine ⟨?_, ?_, ?_, ?_, by decide, by decide, by decide⟩
  · rw [makeRequest_miss net jitter method endpoint qp maxRetries cache now hmiss]
    have hrl : (r.status == 429 || r.status == 503) = false := by simp [h429, h503]
    simp [makeRequestLoop, hnet, hok, hrl]
  · intro h
    simp [terminalErrorMessage, h]
  · intro h
    simp [terminalErrorMessage, h]
  · intro h
    simp [terminalErrorMessage, h]

/-- Concrete instantiation of `c6_error_record_fields`: a 404 produces the
record with kind "API_ERROR", the "Resource not found…" message, status 404. -/
theorem c6_error_record_fields_witness :
    (makeRequest net404 jitterZero .GET "/a" none 3 [] 0).result
      = .error (.api ⟨"API_ERROR", terminalErrorMessage resp404, some 404⟩) ∧
    terminalErrorMessage resp404 = notFoundMessage := by
  have h := c6_error_record_fields net404 jitterZero .GET "/a" none 3 [] 0 resp404
    rfl (by decide) (by decide) (by decide) rfl
  exact ⟨h.1, h.2.2.2.1 rfl⟩

def pdfDemoBytes : List Nat := [37, 80, 68, 70]

def uploadRespDemo : UploadResponse :=
  { status := 201, statusText := "Created", errorHeader := none,
    location := some "/files/987" }

set_option maxRecDepth 10000 in
/-- Claim C7: the multipart body is, in order, the file part (with the
form-data disposition carrying the file name and the content type detected
from the extension table, unknown extensions falling back to
application/octet-stream), the raw payload, the category part when a category
was supplied, and the closing boundary; for `report.pdf` with category "42"
the body holds exactly two parts separated by the chosen boundary plus one
closing boundary, and the file part declares `application/pdf`. -/
theorem c7_multipart_body (boundary fileName : String) (fileBuffer : List Nat) (cid : String)
    (hcid : cid.isEmpty = false) :
    (multipartBody boundary fileName fileBuffer (some cid)
      = strBytes ("--" ++ boundary ++ "\r\n" ++
          "Content-Disposition: form-data; name=\"file\"; filename=\"" ++ fileName ++ "\"\r\n" ++
          "Content-Type: " ++ fileContentTypeFor fileName ++ "\r\n\r\n")
        ++ fileBuffer
        ++ strBytes ("\r\n" ++
            ("--" ++ boundary ++ "\r\n" ++
             "Content-Disposition: form-data; name=\"category\"\r\n\r\n" ++ cid ++ "\r\n") ++
            "--" ++ boundary ++ "--\r\n")) ∧
    (multipartBody boundary fileName fileBuffer none
      = strBytes ("--" ++ boundary ++ "\r\n" ++
          "Content-Disposition: form-data; name=\"file\"; filename=\"" ++ fileName ++ "\"\r\n" ++
          "Content-Type: " ++ fileContentTypeFor fileName ++ "\r\n\r\n")
        ++ fileBuffer
        ++ strBytes ("\r\n" ++ "" ++ "--" ++ boundary ++ "--\r\n")) ∧
    fileContentTypeFor "report.pdf" = "application/pdf" ∧
    (∀ fn, contentTypeMap.lookup (fileExtension fn) = none →
      fileContentTypeFor fn = "application/octet-stream") ∧
    (uploadFile 0 pdfDemoBytes "report.pdf" (some "42") uploadRespDemo).body
      = multipartBody (uploadBoundary 0) "report.pdf" pdfDemoBytes (some "42") ∧
    countSub (strBytes ("--" ++ uploadBoundary 0 ++ "\r\n"))
      (multipartBody (uploadBoundary 0) "report.pdf" pdfDemoBytes (some "42")) = 2 ∧
    countSub (strBytes ("--" ++ uploadBoundary 0 ++ "--"))
      (multipartBody (uploadBoundary 0) "report.pdf" pdfDemoBytes (some "42")) = 1 := by
  refine ⟨?_, ?_, rfl, ?_, rfl, by decide, by decide⟩
  · simp [multipartBody, hcid]
  · simp [multipartBody]
  · intro fn h
    simp [fileContentTypeFor, h]

/-- Concrete instantiation of `c7_multipart_body` at `report.pdf`, category
"42" and a 4-byte payload. -/
theorem c7_multipart_body_witness :
    multipartBody (uploadBoundary 0) "report.pdf" pdfDemoBytes (some "42")
      = strBytes ("--" ++ uploadBoundary 0 ++ "\r\n" ++
          "Content-Disposition: form-data; name=\"file\"; filename=\"" ++ "report.pdf" ++ "\"\r\n" ++
          "Content-Type: " ++ fileContentTypeFor "report.pdf" ++ "\r\n\r\n")
        ++ pdfDemoBytes
        ++ strBytes ("\r\n" ++
            ("--" ++ uploadBoundary 0 ++ "\r\n" ++
             "Content-Disposition: form-data; name=\"category\"\r\n\r\n" ++ "42" ++ "\r\n") ++
            "--" ++ uploadBoundary 0 ++ "--\r\n") ∧
    fileContentTypeFor "unknown.zip" = "application/octet-stream" := by
  have h := c7_multipart_body (uploadBoundary 0) "report.pdf" pdfDemoBytes "42" rfl
  exact ⟨h.1, h.2.2.2.1 "unknown.zip" rfl⟩

/-- Claim C8: on a 2xx upload response the returned id is the trailing path
segment of the `Location` header (`/files/987` gives "987"), an absent header
gives an absent id rather than a failure, any non-2xx response throws the
`ApiError` built from the vendor header or status-text fallback, and exactly
one fetch runs (no retry for uploads). -/
theorem c8_upload_response (nowMs : Nat) (fileBuffer : List Nat) (fileName : String)
    (categoryId : Option String) (resp : UploadResponse) :
    ((200 ≤ resp.status && resp.status ≤ 299) = true →
      (uploadFile nowMs fileBuffer fileName categoryId resp).result
        = .ok (locationFileId resp.location)) ∧
    locationFileId (some "/files/987") = some "987" ∧
    locationFileId none = none ∧
    ((200 ≤ resp.status && resp.status ≤ 299) = false →
      (uploadFile nowMs fileBuffer fileName categoryId resp).result
        = .error ⟨"API_ERROR", errorMessageFor resp.errorHeader resp.status resp.statusText,
            some resp.status⟩) ∧
    (uploadFile nowMs fileBuffer fileName categoryId resp).fetchCount = 1 := by
  refine ⟨?_, rfl, rfl, ?_, rfl⟩
  · intro h
    simp [uploadFile, uploadFileResult, h]
  · intro h
    simp [uploadFile, uploadFileResult, h]

/-- Concrete instantiation of `c8_upload_response`: a 201 with
`Location: /files/987` returns id "987" from one fetch. -/
theorem c8_upload_response_witness :
    (uploadFile 0 pdfDemoBytes "report.pdf" (some "42") uploadRespDemo).result
      = .ok (some "987") ∧
    (uploadFile 0 pdfDemoBytes "report.pdf" (some "42") uploadRespDemo).fetchCount = 1 := by
  have h := c8_upload_response 0 pdfDemoBytes "report.pdf" (some "42") uploadRespDemo
  refine ⟨?_, h.2.2.2.2⟩
  have h1 := h.1 (by decide)
  rw [h1]
  rfl

/-- Claim C9: for a 2xx response, a 204 status or a missing (or empty)
content-type yields the empty result, a content-type containing
application/json yields the parsed data, and any other content-type yields the
raw text. -/
theorem c9_success_content_types (net : Nat → FetchOutcome) (jitter : Nat → Nat)
    (method : Method) (endpoint : String) (qp : Option (List (String × String)))
    (maxRetries : Nat) (cache : Cache) (now : Nat) (r : HttpResponse)
    (hnet : net 0 = .resp r) (hok : respOk r = true)
    (hmiss : cacheGet cache (getCacheKey endpoint qp) = none) :
    ((r.status = 204 ∨ r.contentType = none ∨ r.contentType = some "") →
      (makeRequest net jitter method endpoint qp maxRetries cache now).result
        = .ok .emptyObj) ∧
    (∀ ct, r.contentType = some ct → ct.isEmpty = false → r.status ≠ 204 →
      strContains ct "application/json" = true →
      (makeRequest net jitter method endpoint qp maxRetries cache now).result
        = .ok (.jsonData r.body)) ∧
    (∀ ct, r.contentType = some ct → ct.isEmpty = false → r.status ≠ 204 →
      strContains ct "application/json" = false →
      (makeRequest net jitter method endpoint qp maxRetries cache now).result
        = .ok (.textData r.body)) := by
  rw [makeRequest_miss net jitter method endpoint qp maxRetries cache now hmiss]
  refine ⟨?_, ?_, ?_⟩
  · intro h
    rcases h with h | h | h
    · cases hct : r.contentType with
      | none => simp [makeRequestLoop, hnet, hok, hct]
      | some ct => simp [makeRequestLoop, hnet, hok, hct, h]
    · simp [makeRequestLoop, hnet, hok, h]
    · have he : "".isEmpty = true := rfl
      simp [makeRequestLoop, hnet, hok, h, he]
  · intro ct hct hne h204 hj
    simp [makeRequestLoop, hnet, hok, hct, hne, h204, hj]
  · intro ct hct hne h204 hj
    simp [makeRequestLoop, hnet, hok, hct, hne, h204, hj]

def resp204 : HttpResponse :=
  { status := 204, statusText := "No Content", errorHeader := none,
    retryAfterSecs := none, contentType := some "application/json", body := "" }

def net204 : Nat → FetchOutcome := fun _ => .resp resp204

def respText : HttpResponse :=
  { status := 200, statusText := "OK", errorHeader := none,
    retryAfterSecs := none, contentType := some "text/csv", body := "a,b" }

def netText : Nat → FetchOutcome := fun _ => .resp respText

/-- Concrete instantiation of `c9_success_content_types`: a 204 yields the
empty result, an application/json 200 yields parsed data, a text/csv 200
yields raw text. -/
theorem c9_success_content_types_witness :
    (makeRequest net204 jitterZero .GET "/e" none 3 [] 0).result = .ok .emptyObj ∧
    (makeRequest netJson jitterZero .GET "/e" none 3 [] 0).result
      = .ok (.jsonData "[\"x\"]") ∧
    (makeRequest netText jitterZero .GET "/e" none 3 [] 0).result
      = .ok (.textData "a,b") := by
  have h1 := (c9_success_content_types net204 jitterZero .GET "/e" none 3 [] 0 resp204
    rfl (by decide) rfl).1 (Or.inl rfl)
  have h2 := (c9_success_content_types netJson jitterZero .GET "/e" none 3 [] 0 respJsonDemo
    rfl (by decide) rfl).2.1 "application/json" rfl (by decide) (by decide) (by decide)
  have h3 := (c9_success_content_types netText jitterZero .GET "/e" none 3 [] 0 respText
    rfl (by decide) rfl).2.2 "text/csv" rfl (by decide) (by decide) (by decide)
  exact ⟨h1, h2, h3⟩

/-- Claim C10: `getReport` bypasses the executor's cache and retry machinery
for every format including json: the cache is unchanged and never influences
the result, exactly one fetch runs, and any non-2xx status — 429 and 503
included — throws immediately. -/
theorem c10_getReport_bypasses_executor (net : Nat → FetchOutcome) (format : ReportFormat)
    (cache : Cache) :
    (getReport net format cache).cache = cache ∧
    (getReport net format cache).fetchCount = 1 ∧
    (∀ cache2, (getReport net format cache).result = (getReport net format cache2).result) ∧
    (∀ r, net 0 = .resp r → respOk r = false →
      (getReport net format cache).result
        = .error (.api ⟨"API_ERROR", httpErrorMessage r, some r.status⟩)) := by
  refine ⟨?_, ?_, ?_, ?_⟩
  · simp only [getReport]
    repeat' split
    all_goals simp
  · simp only [getReport]
    repeat' split
    all_goals simp
  · intro cache2
    simp only [getReport]
    repeat' split
    all_goals simp_all
  · intro r hn hok
    simp [getReport, hn, hok]

/-- Concrete instantiation of `c10_getReport_bypasses_executor`: a json-format
report call hitting a 429 throws at once after a single fetch, leaving the
cache untouched. -/
theorem c10_getReport_bypasses_executor_witness :
    (getReport net429NoRA .json [("/e", entryFresh)]).cache = [("/e", entryFresh)] ∧
    (getReport net429NoRA .json [("/e", entryFresh)]).fetchCount = 1 ∧
    (getReport net429NoRA .json [("/e", entryFresh)]).result
      = .error (.api ⟨"API_ERROR", "HTTP 429: Too Many Requests", some 429⟩) := by
  have h := c10_getReport_bypasses_executor net429NoRA .json [("/e", entryFresh)]
  refine ⟨h.1, h.2.1, ?_⟩
  have h4 := h.2.2.2 resp429NoRA rfl (by decide)
  rw [h4]
  rfl
